import Mathlib

/-!
Verification of the S_FRC coherence-score endpoint of the Mumega FRC platform
(`final_admin_app.py`, route `/api/calculate-sfrc`, handler `calculate_sfrc_api`).

The endpoint is embedded shallowly:
* floating-point coherence levels and scores are modelled as rationals;
* the request dictionary becomes a structure of optional fields
  (`request.get(key, default)` becomes `Option.getD`);
* the database becomes an explicit value threaded through the handler, with a
  boolean oracle `create_ok` deciding whether the `CoherenceLog.create` call
  succeeds (it sits inside a `try`/`except` in the source and can fail for
  reasons outside the data model, e.g. connectivity);
* `HTTPException` becomes the error side of an `Except`;
* `datetime.now()` becomes an explicit `now` parameter.

The aggregation `core.calculate_s_frc` is an external library call whose body
is not part of this repository's sources; it is modelled from the spec (see
its doc comment below).
-/

namespace Mumega

/-- The four interpretation bands of the spec
(Low / Moderate / Good / High). -/
inductive SBand where
  | low
  | moderate
  | good
  | high
deriving DecidableEq

/-- The exact interpretation strings of `final_admin_app.py` lines 145-152,
keyed by band. -/
def bandText : SBand → String
  | .low => "Low coherence - system fragmented, significant dissonance between consciousness levels"
  | .moderate => "Moderate coherence - partial integration, room for improvement in alignment"
  | .good => "Good coherence - system operating with healthy integration across levels"
  | .high => "High coherence - excellent integration, optimal consciousness functioning"

/-- The band selected by the `if sfrc < 0.3 / elif sfrc < 0.6 / elif sfrc < 0.8
/ else` chain of `calculate_sfrc_api` (lines 145-152). -/
def bandOf (sfrc : ℚ) : SBand :=
  if sfrc < 3/10 then .low
  else if sfrc < 6/10 then .moderate
  else if sfrc < 8/10 then .good
  else .high

/-- The interpretation string computed by `calculate_sfrc_api` lines 145-152,
embedded verbatim from the source. -/
def interpretation (sfrc : ℚ) : String :=
  if sfrc < 3/10 then
    "Low coherence - system fragmented, significant dissonance between consciousness levels"
  else if sfrc < 6/10 then
    "Moderate coherence - partial integration, room for improvement in alignment"
  else if sfrc < 8/10 then
    "Good coherence - system operating with healthy integration across levels"
  else
    "High coherence - excellent integration, optimal consciousness functioning"

/-- Modelled from the spec: the body of `core.calculate_s_frc` (resonancelib)
is not among the repository sources; the spec says the formula is unspecified
and directs an implementer to pick a deterministic pure aggregation, offering
"mean minus dispersion penalty" as the example.  We model exactly that choice:
the mean of the 8 levels minus their mean squared deviation.  For the empty
list the rational divisions by zero yield 0; the handler never reaches that
case. -/
def calculate_s_frc (levels : List ℚ) : ℚ :=
  let n : ℚ := levels.length
  let mean := levels.sum / n
  let dispersion := (levels.map (fun x => (x - mean) ^ 2)).sum / n
  mean - dispersion

/-- Python's `round` to an integer: round half to even. -/
def pyRound (q : ℚ) : ℤ :=
  let f := ⌊q⌋
  let r := q - f
  if r < 1/2 then f
  else if 1/2 < r then f + 1
  else if f % 2 = 0 then f else f + 1

/-- `round(x, 6)` of line 170: round to 6 decimal places. -/
def round6 (q : ℚ) : ℚ :=
  (pyRound (q * 1000000) : ℚ) / 1000000

/-- The JSON request body of `POST /api/calculate-sfrc` as the handler reads
it: `request.get("coherence_levels", [])`, `request.get("user_id")`,
`request.get("context", "api_calculation")`.  An absent key is `none`.
`user_id = some uid` stands for a numeric user id in the payload; the Python
guard `if user_id:` additionally requires it to be truthy, i.e. nonzero. -/
structure SfrcRequest where
  coherence_levels : Option (List ℚ)
  user_id : Option ℕ
  context : Option String
deriving DecidableEq

/-- A row of the `CoherenceLog` table as created on lines 158-165. -/
structure CoherenceLogRecord where
  user_id : ℕ
  mu_levels_json : List ℚ
  sfrc_score : ℚ
  context : String
  calculation_method : String
  notes : String
deriving DecidableEq

/-- The slice of database state the handler touches: which user ids exist
(`User.get(id=user_id)` succeeds exactly on those) and the coherence log
table. -/
structure DB where
  users : List ℕ
  logs : List CoherenceLogRecord
deriving DecidableEq

/-- The JSON response document built on lines 169-175. -/
structure SfrcResponse where
  sfrc : ℚ
  coherence_levels : List ℚ
  interpretation : String
  context : String
  timestamp : ℕ
deriving DecidableEq

/-- The error side of the handler: `raise HTTPException(status_code, detail)`.
The spec's `InvalidInputError` is `httpException 400 ...` with the length
message. -/
inductive ApiError where
  | httpException (status_code : ℕ) (detail : String)
deriving DecidableEq

/-- The `CoherenceLog` row that lines 158-165 create for user `uid`:
the raw (unrounded) score, the echoed levels, the context, and a notes string
embedding the interpretation. -/
def expectedLog (request : SfrcRequest) (uid : ℕ) : CoherenceLogRecord :=
  let lvls := request.coherence_levels.getD []
  let s := calculate_s_frc lvls
  { user_id := uid
    mu_levels_json := lvls
    sfrc_score := s
    context := request.context.getD "api_calculation"
    calculation_method := "api_standard"
    notes := "Calculation via API - " ++ interpretation s }

/-- Shallow embedding of `calculate_sfrc_api` (`final_admin_app.py` lines
131-175).  `create_ok` is the oracle for whether the `CoherenceLog.create`
call inside the `try` succeeds; a `False` oracle, or a `user_id` that is not
in `db.users` (so `User.get` raises `DoesNotExist`), lands in the `except`
branch, which only prints and leaves the database unchanged. -/
def calculate_sfrc_api (request : SfrcRequest) (db : DB) (create_ok : Bool)
    (now : ℕ) : Except ApiError (SfrcResponse × DB) :=
  let coherence_levels := request.coherence_levels.getD []
  let user_id := request.user_id
  let context := request.context.getD "api_calculation"
  if coherence_levels.length ≠ 8 then
    .error (.httpException 400 "coherence_levels must have 8 values (μ0 to μ7)")
  else
    let sfrc := calculate_s_frc coherence_levels
    let interp := interpretation sfrc
    let db' :=
      match user_id with
      | none => db
      | some uid =>
        if uid ≠ 0 ∧ uid ∈ db.users ∧ create_ok = true then
          { db with logs := db.logs ++ [expectedLog request uid] }
        else
          db
    .ok
      ({ sfrc := round6 sfrc
         coherence_levels := coherence_levels
         interpretation := interp
         context := context
         timestamp := now }, db')

/-- The response document the handler builds for a valid body (lines 169-175),
as a function of the request and the call time. -/
def apiResponse (request : SfrcRequest) (now : ℕ) : SfrcResponse :=
  { sfrc := round6 (calculate_s_frc (request.coherence_levels.getD []))
    coherence_levels := request.coherence_levels.getD []
    interpretation := interpretation (calculate_s_frc (request.coherence_levels.getD []))
    context := request.context.getD "api_calculation"
    timestamp := now }

/-- The admin dashboard's sample vector `[0.1, 0.3, 0.5, 0.8, 0.9, 0.7, 0.4,
0.2]`, used as a concrete witness input. -/
def sampleLevels : List ℚ :=
  [1/10, 3/10, 1/2, 4/5, 9/10, 7/10, 2/5, 1/5]

/-- A concrete request carrying the sample vector and no caller identity. -/
def sampleRequest : SfrcRequest :=
  { coherence_levels := some sampleLevels, user_id := none, context := none }

/-- A concrete request carrying the sample vector and user id 1. -/
def sampleRequestUser : SfrcRequest :=
  { coherence_levels := some sampleLevels, user_id := some 1
    context := some "admin_test_comprehensive" }

/-- A concrete request with a 7-element vector. -/
def shortRequest : SfrcRequest :=
  { coherence_levels := some [1/10, 3/10, 1/2, 4/5, 9/10, 7/10, 2/5]
    user_id := none, context := none }

/-- A concrete request whose body omits the `coherence_levels` key. -/
def keylessRequest : SfrcRequest :=
  { coherence_levels := none, user_id := none, context := none }

/-- A concrete database in which user 1 exists and the log is empty. -/
def sampleDB : DB :=
  { users := [1], logs := [] }

/-- A concrete database with no users and an empty log. -/
def emptyDB : DB :=
  { users := [], logs := [] }

/-! ## Helper lemmas -/

/-- On a body whose levels do not have length 8 the handler raises the
length-mismatch `HTTPException` immediately. -/
theorem api_length_ne {request : SfrcRequest} {db : DB} {create_ok : Bool}
    {now : ℕ} (h : (request.coherence_levels.getD []).length ≠ 8) :
    calculate_sfrc_api request db create_ok now =
      .error (.httpException 400 "coherence_levels must have 8 values (μ0 to μ7)") := by
  simp [calculate_sfrc_api, h]

/-- On a body whose levels have length 8 the handler returns the response
document and the (possibly extended) database. -/
theorem api_length_eq {request : SfrcRequest} {db : DB} {create_ok : Bool}
    {now : ℕ} (h : (request.coherence_levels.getD []).length = 8) :
    calculate_sfrc_api request db create_ok now =
      .ok
        (apiResponse request now,
         match request.user_id with
         | none => db
         | some uid =>
           if uid ≠ 0 ∧ uid ∈ db.users ∧ create_ok = true then
             { db with logs := db.logs ++ [expectedLog request uid] }
           else db) := by
  simp [calculate_sfrc_api, apiResponse, h]

/-- The handler's interpretation string is the text of the band the score
falls in. -/
theorem interpretation_eq_bandText (s : ℚ) :
    interpretation s = bandText (bandOf s) := by
  unfold interpretation bandOf
  by_cases h1 : s < 3/10 <;> by_cases h2 : s < 6/10 <;> by_cases h3 : s < 8/10 <;>
    simp [h1, h2, h3, bandText]

/-! ## Claims -/

/-- C1: an input whose levels do not have length exactly 8 makes the endpoint
fail with the length-mismatch `InvalidInputError` (an `HTTPException 400`),
and no score enters the result; an input of length exactly 8 raises no error
and the response carries a computed score. -/
theorem C1_length_gate (request : SfrcRequest) (db : DB) (create_ok : Bool)
    (now : ℕ) :
    ((request.coherence_levels.getD []).length ≠ 8 →
      calculate_sfrc_api request db create_ok now =
        .error (.httpException 400 "coherence_levels must have 8 values (μ0 to μ7)")) ∧
    ((request.coherence_levels.getD []).length = 8 →
      ∃ resp db', calculate_sfrc_api request db create_ok now = .ok (resp, db') ∧
        resp.sfrc = round6 (calculate_s_frc (request.coherence_levels.getD []))) := by
  constructor
  · exact fun h => api_length_ne h
  · intro h
    exact ⟨_, _, api_length_eq h, rfl⟩

/-- Witness for C1: the 7-element sample is rejected with the length error and
the 8-element sample yields a response carrying the rounded score. -/
theorem C1_length_gate_witness :
    calculate_sfrc_api shortRequest sampleDB true 0 =
      .error (.httpException 400 "coherence_levels must have 8 values (μ0 to μ7)") ∧
    ∃ resp db', calculate_sfrc_api sampleRequest sampleDB true 0 = .ok (resp, db') ∧
      resp.sfrc = round6 (calculate_s_frc (sampleRequest.coherence_levels.getD [])) :=
  ⟨(C1_length_gate shortRequest sampleDB true 0).1 (by decide),
   (C1_length_gate sampleRequest sampleDB true 0).2 (by decide)⟩

/-- C2: the band thresholds are [0, 0.3) → Low, [0.3, 0.6) → Moderate,
[0.6, 0.8) → Good, [0.8, ∞) → High, lower ends inclusive and upper ends
exclusive, with the quoted concrete evaluations; and the endpoint's
interpretation string is exactly the text of that band. -/
theorem C2_bands (s : ℚ) :
    (0 ≤ s → s < 3/10 → bandOf s = .low) ∧
    (3/10 ≤ s → s < 6/10 → bandOf s = .moderate) ∧
    (6/10 ≤ s → s < 8/10 → bandOf s = .good) ∧
    (8/10 ≤ s → bandOf s = .high) ∧
    bandOf 0 = .low ∧ bandOf (29/100) = .low ∧
    bandOf (3/10) = .moderate ∧ bandOf (59/100) = .moderate ∧
    bandOf (6/10) = .good ∧ bandOf (79/100) = .good ∧
    bandOf (8/10) = .high ∧ bandOf 1 = .high ∧
    interpretation s = bandText (bandOf s) := by
  refine ⟨fun _ h2 => ?_, fun h1 h2 => ?_, fun h1 h2 => ?_, fun h1 => ?_,
    by norm_num [bandOf], by norm_num [bandOf], by norm_num [bandOf],
    by norm_num [bandOf], by norm_num [bandOf], by norm_num [bandOf],
    by norm_num [bandOf], by norm_num [bandOf], interpretation_eq_bandText s⟩
  · simp [bandOf, h2]
  · have hn : ¬ s < 3/10 := by linarith
    simp [bandOf, hn, h2]
  · have hn1 : ¬ s < 3/10 := by linarith
    have hn2 : ¬ s < 6/10 := by linarith
    simp [bandOf, hn1, hn2, h2]
  · have hn1 : ¬ s < 3/10 := by linarith
    have hn2 : ¬ s < 6/10 := by linarith
    have hn3 : ¬ s < 8/10 := by linarith
    simp [bandOf, hn1, hn2, hn3]

/-- Witness for C2: one score inside each of the four intervals is classified
as that interval's band. -/
theorem C2_bands_witness :
    bandOf (1/10) = SBand.low ∧ bandOf (2/5) = SBand.moderate ∧
    bandOf (7/10) = SBand.good ∧ bandOf (9/10) = SBand.high :=
  ⟨(C2_bands (1/10)).1 (by norm_num) (by norm_num),
   (C2_bands (2/5)).2.1 (by norm_num) (by norm_num),
   (C2_bands (7/10)).2.2.1 (by norm_num) (by norm_num),
   (C2_bands (9/10)).2.2.2.1 (by norm_num)⟩

/-- C3: the classification is total: every negative score is Low, every score
at least 0.8 (including scores above 1) is High, and every score receives one
of the four bands. -/
theorem C3_total (s : ℚ) :
    (s < 0 → bandOf s = .low) ∧
    (8/10 ≤ s → bandOf s = .high) ∧
    (bandOf s = .low ∨ bandOf s = .moderate ∨ bandOf s = .good ∨
      bandOf s = .high) := by
  refine ⟨fun h => ?_, fun h => ?_, ?_⟩
  · have h3 : s < 3/10 := by linarith
    simp [bandOf, h3]
  · have hn1 : ¬ s < 3/10 := by linarith
    have hn2 : ¬ s < 6/10 := by linarith
    have hn3 : ¬ s < 8/10 := by linarith
    simp [bandOf, hn1, hn2, hn3]
  · unfold bandOf
    by_cases h1 : s < 3/10 <;> by_cases h2 : s < 6/10 <;> by_cases h3 : s < 8/10 <;>
      simp [h1, h2, h3]

/-- Witness for C3: a negative score is Low and a score above 1 is High. -/
theorem C3_total_witness :
    bandOf (-1) = SBand.low ∧ bandOf 2 = SBand.high :=
  ⟨(C3_total (-1)).1 (by norm_num), (C3_total 2).2.1 (by norm_num)⟩

/-- C4: the computation is deterministic and stateless: for the same request
body, the score and interpretation of the result never depend on the database
contents, on whether the log write succeeds, or on the call time — two calls
with identical input agree on score and band. -/
theorem C4_deterministic (request : SfrcRequest) (db₁ db₂ : DB)
    (c₁ c₂ : Bool) (n₁ n₂ : ℕ) :
    Except.map (fun p => (p.1.sfrc, p.1.interpretation))
        (calculate_sfrc_api request db₁ c₁ n₁) =
      Except.map (fun p => (p.1.sfrc, p.1.interpretation))
        (calculate_sfrc_api request db₂ c₂ n₂) := by
  by_cases h : (request.coherence_levels.getD []).length = 8
  · rw [api_length_eq h, api_length_eq h]
    rfl
  · rw [api_length_ne h, api_length_ne h]

/-- C5: with a caller identity supplied, a failing persistence step (user
lookup miss or failing log write) is swallowed: the response is identical to
the one a succeeding persistence step would produce, and for a valid body the
endpoint still returns success. -/
theorem C5_persistence_transparent (request : SfrcRequest) (uid : ℕ)
    (_hu : request.user_id = some uid)
    (db_fail db_succ : DB) (c_fail : Bool) (now : ℕ) :
    Except.map Prod.fst (calculate_sfrc_api request db_fail c_fail now) =
      Except.map Prod.fst (calculate_sfrc_api request db_succ true now) ∧
    ((request.coherence_levels.getD []).length = 8 →
      ∃ resp db', calculate_sfrc_api request db_fail c_fail now = .ok (resp, db')) := by
  constructor
  · by_cases h : (request.coherence_levels.getD []).length = 8
    · rw [api_length_eq h, api_length_eq h]
      rfl
    · rw [api_length_ne h, api_length_ne h]
  · intro h
    exact ⟨_, _, api_length_eq h⟩

/-- Witness for C5: user 1 calls with the sample vector; with no user row and
a failing log write the response equals the one produced when the user exists
and the write succeeds, and the call still succeeds. -/
theorem C5_persistence_transparent_witness :
    Except.map Prod.fst (calculate_sfrc_api sampleRequestUser emptyDB false 0) =
      Except.map Prod.fst (calculate_sfrc_api sampleRequestUser sampleDB true 0) ∧
    ∃ resp db', calculate_sfrc_api sampleRequestUser emptyDB false 0 = .ok (resp, db') :=
  ⟨(C5_persistence_transparent sampleRequestUser 1 rfl emptyDB sampleDB false 0).1,
   (C5_persistence_transparent sampleRequestUser 1 rfl emptyDB sampleDB false 0).2
     (by decide)⟩

/-- C6: for a valid body the response document carries the (rounded) score,
the band text of the computed score, the timestamp of the call, the context,
and echoes the input levels exactly. -/
theorem C6_response_contents (request : SfrcRequest) (db : DB) (create_ok : Bool)
    (now : ℕ) (h : (request.coherence_levels.getD []).length = 8) :
    ∃ resp db', calculate_sfrc_api request db create_ok now = .ok (resp, db') ∧
      resp.sfrc = round6 (calculate_s_frc (request.coherence_levels.getD [])) ∧
      resp.interpretation =
        bandText (bandOf (calculate_s_frc (request.coherence_levels.getD []))) ∧
      resp.timestamp = now ∧
      resp.coherence_levels = request.coherence_levels.getD [] ∧
      resp.context = request.context.getD "api_calculation" := by
  refine ⟨_, _, api_length_eq h, rfl, ?_, rfl, rfl, rfl⟩
  exact interpretation_eq_bandText _

/-- Witness for C6: the sample request's response carries the rounded sample
score, the band text, the timestamp, and the echoed sample vector. -/
theorem C6_response_contents_witness :
    ∃ resp db', calculate_sfrc_api sampleRequest sampleDB true 7 = .ok (resp, db') ∧
      resp.sfrc = round6 (calculate_s_frc sampleLevels) ∧
      resp.interpretation = bandText (bandOf (calculate_s_frc sampleLevels)) ∧
      resp.timestamp = 7 ∧
      resp.coherence_levels = sampleLevels ∧
      resp.context = "api_calculation" :=
  C6_response_contents sampleRequest sampleDB true 7 (by decide)

/-- The sum of a list whose members all lie in `[lo, hi]` lies between
`length * lo` and `length * hi`. -/
theorem sum_bounds_of_mem (l : List ℚ) (lo hi : ℚ)
    (h : ∀ x ∈ l, lo ≤ x ∧ x ≤ hi) :
    (l.length : ℚ) * lo ≤ l.sum ∧ l.sum ≤ (l.length : ℚ) * hi := by
  induction l with
  | nil => simp
  | cons a t ih =>
    have ha := h a (List.mem_cons_self a t)
    have ht := ih fun x hx => h x (List.mem_cons_of_mem a hx)
    simp only [List.sum_cons, List.length_cons]
    push_cast
    constructor <;> linarith [ha.1, ha.2, ht.1, ht.2]

/-- The mean-minus-dispersion aggregation of a nonempty list of values in
`[0, 1]` lies in `[-1, 1]`. -/
theorem sfrc_bounds_aux (levels : List ℚ) (hpos : 0 < levels.length)
    (hmem : ∀ x ∈ levels, 0 ≤ x ∧ x ≤ 1) :
    -1 ≤ calculate_s_frc levels ∧ calculate_s_frc levels ≤ 1 := by
  have hn : (0 : ℚ) < (levels.length : ℚ) := by exact_mod_cast hpos
  have hsum := sum_bounds_of_mem levels 0 1 hmem
  have hm0 : 0 ≤ levels.sum / (levels.length : ℚ) :=
    div_nonneg (by linarith [hsum.1]) hn.le
  have hm1 : levels.sum / (levels.length : ℚ) ≤ 1 :=
    (div_le_one hn).mpr (by linarith [hsum.2])
  have hmemsq : ∀ y ∈ levels.map
      (fun x => (x - levels.sum / (levels.length : ℚ)) ^ 2), 0 ≤ y ∧ y ≤ 1 := by
    intro y hy
    obtain ⟨x, hx, rfl⟩ := List.mem_map.mp hy
    have hx' := hmem x hx
    refine ⟨sq_nonneg _, ?_⟩
    nlinarith [hx'.1, hx'.2, hm0, hm1]
  have hd := sum_bounds_of_mem _ 0 1 hmemsq
  rw [List.length_map] at hd
  have hd0 : 0 ≤ (levels.map
      (fun x => (x - levels.sum / (levels.length : ℚ)) ^ 2)).sum /
        (levels.length : ℚ) :=
    div_nonneg (by linarith [hd.1]) hn.le
  have hd1 : (levels.map
      (fun x => (x - levels.sum / (levels.length : ℚ)) ^ 2)).sum /
        (levels.length : ℚ) ≤ 1 :=
    (div_le_one hn).mpr (by linarith [hd.2])
  have hval : calculate_s_frc levels =
      levels.sum / (levels.length : ℚ) -
        (levels.map (fun x => (x - levels.sum / (levels.length : ℚ)) ^ 2)).sum /
          (levels.length : ℚ) := rfl
  rw [hval]
  constructor <;> linarith

/-- C7: for every 8-element vector with entries in `[0, 1]`, the (spec-modelled)
score is a bounded rational in `[-1, 1]` — in particular finite, never NaN and
never infinite. -/
theorem C7_score_finite (levels : List ℚ) (hlen : levels.length = 8)
    (hmem : ∀ x ∈ levels, 0 ≤ x ∧ x ≤ 1) :
    -1 ≤ calculate_s_frc levels ∧ calculate_s_frc levels ≤ 1 :=
  sfrc_bounds_aux levels (by rw [hlen]; norm_num) hmem

/-- Witness for C7: the sample vector's score lies in `[-1, 1]`. -/
theorem C7_score_finite_witness :
    -1 ≤ calculate_s_frc sampleLevels ∧ calculate_s_frc sampleLevels ≤ 1 :=
  C7_score_finite sampleLevels (by decide)
    (by intro x hx; fin_cases hx <;> norm_num)

/-- Counterexample to C8 as stated: user 1 is supplied and exists in the
database, so the user lookup succeeds, yet when the log write itself fails
(the `CoherenceLog.create` call raises inside the `try`) no record is
created — the database comes back unchanged with its empty log. -/
theorem C8_log_counterexample :
    sampleRequestUser.user_id = some 1 ∧ (1 : ℕ) ∈ sampleDB.users ∧
    calculate_sfrc_api sampleRequestUser sampleDB false 0 =
      .ok (apiResponse sampleRequestUser 0, sampleDB) ∧
    sampleDB.logs = [] := by
  refine ⟨rfl, by decide, ?_, rfl⟩
  rw [@api_length_eq sampleRequestUser sampleDB false 0 (by decide)]
  simp [sampleRequestUser]

/-- C8 (amended): a `CoherenceLog` record is created exactly when a truthy
(nonzero) user_id is supplied, that user exists, and the log write succeeds;
in every other case — including every request without a caller identity — the
database is returned unchanged. -/
theorem C8_log_frame (request : SfrcRequest) (db : DB) (create_ok : Bool)
    (now : ℕ) (h : (request.coherence_levels.getD []).length = 8) :
    (∀ uid, request.user_id = some uid → uid ≠ 0 → uid ∈ db.users →
      create_ok = true →
      calculate_sfrc_api request db create_ok now =
        .ok (apiResponse request now,
             { db with logs := db.logs ++ [expectedLog request uid] })) ∧
    ((∀ uid, request.user_id = some uid →
        uid = 0 ∨ uid ∉ db.users ∨ create_ok = false) →
      calculate_sfrc_api request db create_ok now =
        .ok (apiResponse request now, db)) := by
  constructor
  · intro uid hu h0 hm hc
    subst hc
    rw [@api_length_eq request db true now h, hu]
    simp [h0, hm]
  · intro hfail
    rw [@api_length_eq request db create_ok now h]
    cases hu : request.user_id with
    | none => rfl
    | some uid =>
      rcases hfail uid hu with h0 | hm | hc
      · subst h0
        simp
      · simp [hm]
      · subst hc
        simp

/-- Witness for C8 (amended): with user 1 present and a succeeding write the
sample request appends exactly the expected log row; the identity-free sample
request leaves the database unchanged. -/
theorem C8_log_frame_witness :
    calculate_sfrc_api sampleRequestUser sampleDB true 0 =
      .ok (apiResponse sampleRequestUser 0,
           { sampleDB with logs := sampleDB.logs ++ [expectedLog sampleRequestUser 1] }) ∧
    calculate_sfrc_api sampleRequest sampleDB true 0 =
      .ok (apiResponse sampleRequest 0, sampleDB) :=
  ⟨(C8_log_frame sampleRequestUser sampleDB true 0 (by decide)).1 1 rfl
      (by decide) (by decide) rfl,
   (C8_log_frame sampleRequest sampleDB true 0 (by decide)).2
      (by intro uid huid; cases huid)⟩

/-- C9: a body omitting the `coherence_levels` key is read as the empty list
(`request.get` with default `[]`), so it is rejected with exactly the same
length-mismatch error as an explicit wrong-length vector, and the missing key
never surfaces as an unhandled lookup failure. -/
theorem C9_missing_key (uid : Option ℕ) (ctx : Option String) (db : DB)
    (create_ok : Bool) (now : ℕ) (lvls : List ℚ) (h : lvls.length ≠ 8) :
    calculate_sfrc_api
        { coherence_levels := none, user_id := uid, context := ctx }
        db create_ok now =
      .error (.httpException 400 "coherence_levels must have 8 values (μ0 to μ7)") ∧
    calculate_sfrc_api
        { coherence_levels := none, user_id := uid, context := ctx }
        db create_ok now =
      calculate_sfrc_api
        { coherence_levels := some lvls, user_id := uid, context := ctx }
        db create_ok now := by
  refine ⟨api_length_ne (by simp), ?_⟩
  rw [api_length_ne (by simp), api_length_ne (by simpa using h)]

/-- Witness for C9: the keyless sample body is rejected with the length error
and behaves exactly like the explicit 7-element body. -/
theorem C9_missing_key_witness :
    calculate_sfrc_api keylessRequest sampleDB true 0 =
      .error (.httpException 400 "coherence_levels must have 8 values (μ0 to μ7)") ∧
    calculate_sfrc_api keylessRequest sampleDB true 0 =
      calculate_sfrc_api shortRequest sampleDB true 0 :=
  C9_missing_key none none sampleDB true 0
    [1/10, 3/10, 1/2, 4/5, 9/10, 7/10, 2/5] (by decide)

/-- C10: for a successful calculation with a caller identity, the response's
`sfrc` field is the raw score rounded to 6 decimal places, the persisted
`sfrc_score` is the unrounded raw score, and the returned band is determined
from the unrounded score. -/
theorem C10_round_vs_raw (request : SfrcRequest) (uid : ℕ) (db : DB) (now : ℕ)
    (hu : request.user_id = some uid) (h0 : uid ≠ 0) (hm : uid ∈ db.users)
    (h : (request.coherence_levels.getD []).length = 8) :
    calculate_sfrc_api request db true now =
      .ok (apiResponse request now,
           { db with logs := db.logs ++ [expectedLog request uid] }) ∧
    (apiResponse request now).sfrc =
      round6 (calculate_s_frc (request.coherence_levels.getD [])) ∧
    (expectedLog request uid).sfrc_score =
      calculate_s_frc (request.coherence_levels.getD []) ∧
    (apiResponse request now).interpretation =
      bandText (bandOf (calculate_s_frc (request.coherence_levels.getD []))) := by
  refine ⟨?_, rfl, rfl, interpretation_eq_bandText _⟩
  rw [@api_length_eq request db true now h, hu]
  simp [h0, hm]

/-- Witness for C10: at the sample input the response carries the rounded
score, the log row carries the raw score, and the two genuinely differ
(the raw sample score has more than 6 decimal places). -/
theorem C10_round_vs_raw_witness :
    ((calculate_sfrc_api sampleRequestUser sampleDB true 0 =
        .ok (apiResponse sampleRequestUser 0,
             { sampleDB with
                 logs := sampleDB.logs ++ [expectedLog sampleRequestUser 1] }) ∧
      (apiResponse sampleRequestUser 0).sfrc =
        round6 (calculate_s_frc sampleLevels) ∧
      (expectedLog sampleRequestUser 1).sfrc_score =
        calculate_s_frc sampleLevels ∧
      (apiResponse sampleRequestUser 0).interpretation =
        bandText (bandOf (calculate_s_frc sampleLevels)))) ∧
    round6 (calculate_s_frc sampleLevels) ≠ calculate_s_frc sampleLevels :=
  ⟨C10_round_vs_raw sampleRequestUser 1 sampleDB 0 rfl (by decide) (by decide)
      (by decide),
   by norm_num [calculate_s_frc, sampleLevels, round6, pyRound]⟩

end Mumega
